import Mathlib

/-!
Verification of `lambda_functions/data_quality_checker/lambda_function.py`:
a shallow embedding of the data-quality profiler, rule evaluator, status
aggregation, Bedrock agent client (circuit breaker / retry loop) and the
Lambda handler, with theorems checking the specification's claims.

Modelling conventions:
* Python floats are exact rationals (`ℚ`); NaN is tracked explicitly via `PFloat`.
* Python dicts whose keys may be absent become structures with `Option` fields.
* Code that can raise returns `Except PyError _`; an uncaught exception is an
  `Except.error`.
-/

set_option linter.unusedVariables false

namespace DataQuality

/-- A Python float as the profiler sees it: NaN, or an exact rational value
(binary doubles are modelled as exact rationals). -/
inductive PFloat where
  | nan : PFloat
  | val (q : ℚ) : PFloat
  deriving DecidableEq

/-- Python exceptions raised by the embedded code. -/
inductive PyError where
  | raised (msg : String)
  | nameError (n : String)
  | unboundLocal (n : String)
  | keyError (k : String)
  deriving DecidableEq

/-- `str(e)` for the modelled exceptions. -/
def PyError.msg : PyError → String
  | .raised m => m
  | .nameError n => "name '" ++ n ++ "' is not defined"
  | .unboundLocal n =>
      "cannot access local variable '" ++ n ++
      "' where it is not associated with a value"
  | .keyError k => "'" ++ k ++ "'"

/-- The pandas dtypes distinguished by the profiler's branch
(`is_bool_dtype` / `is_numeric_dtype` / `is_datetime64_any_dtype` /
`is_string_dtype`, lambda_function.py:335-358). -/
inductive Dtype where
  | boolDt | intDt | floatDt | datetimeDt | objectDt
  deriving DecidableEq

/-- `str(col_data.dtype)` (lambda_function.py:318). -/
def dtypeStr : Dtype → String
  | .boolDt => "bool"
  | .intDt => "int64"
  | .floatDt => "float64"
  | .datetimeDt => "datetime64[ns]"
  | .objectDt => "object"

/-- One cell of a pandas column: a null (NaN/NaT/None), a numeric value, a
boolean, a string, a datetime (modelled by its epoch value), or an unhashable
object (e.g. a Python list) on which `nunique`'s hashing raises TypeError. -/
inductive Cell where
  | null
  | num (q : ℚ)
  | boolV (b : Bool)
  | strV (s : String)
  | time (t : ℤ)
  | unhashable
  deriving DecidableEq

def Cell.isNull : Cell → Bool
  | .null => true
  | _ => false

def Cell.isUnhashable : Cell → Bool
  | .unhashable => true
  | _ => false

/-- A pandas column: dtype plus cells (`df[column]`). -/
structure Column where
  dtype : Dtype
  cells : List Cell
  deriving DecidableEq

/-- A pandas DataFrame: row count (`len(df)`) plus named columns; in a
well-formed frame every column has exactly `nrows` cells. -/
structure DataFrame where
  nrows : ℕ
  cols : List (String × Column)
  deriving DecidableEq

/-- `df.empty`: true when either axis has length 0. -/
def DataFrame.isEmpty (df : DataFrame) : Bool :=
  df.nrows == 0 || df.cols.isEmpty

/-- `col_data.dropna()`. -/
def nonNullCells (cs : List Cell) : List Cell :=
  cs.filter (fun c => !c.isNull)

/-- The numeric values of a column, nulls skipped (pandas reductions use
`skipna=True`). -/
def numsOf (cs : List Cell) : List ℚ :=
  (nonNullCells cs).filterMap (fun c => match c with | .num q => some q | _ => none)

/-- The datetime values of a column, nulls skipped. -/
def timesOf (cs : List Cell) : List ℤ :=
  (nonNullCells cs).filterMap (fun c => match c with | .time t => some t | _ => none)

def listSum (xs : List ℚ) : ℚ := xs.foldl (· + ·) 0

/-- pandas `mean()`: NaN when there is no non-null value. -/
def pandasMean (cs : List Cell) : PFloat :=
  let xs := numsOf cs
  if xs.length = 0 then .nan else .val (listSum xs / xs.length)

/-- Sample variance (n−1 denominator). -/
def sampleVar (xs : List ℚ) : ℚ :=
  let n : ℚ := xs.length
  let m : ℚ := listSum xs / n
  listSum (xs.map (fun x => (x - m) ^ 2)) / (n - 1)

/-- pandas `std()` (sample, n−1 definition): NaN when fewer than two non-null
values. The defined case carries the variance (the square of the standard
deviation), since the square root of a rational is irrational in general;
NaN-ness and zero-ness agree with `std` itself. -/
def pandasStdSq (cs : List Cell) : PFloat :=
  let xs := numsOf cs
  if xs.length ≤ 1 then .nan else .val (sampleVar xs)

/-- pandas `min()` over the numeric values, skipna: NaN on no data. -/
def pandasMin (cs : List Cell) : PFloat :=
  match numsOf cs with
  | [] => .nan
  | x :: rest => .val (rest.foldl min x)

/-- pandas `max()` over the numeric values, skipna: NaN on no data. -/
def pandasMax (cs : List Cell) : PFloat :=
  match numsOf cs with
  | [] => .nan
  | x :: rest => .val (rest.foldl max x)

/-- pandas `median()` with skipna: middle of the sorted non-null values,
the average of the two middles for even length, NaN on no data. -/
def pandasMedian (cs : List Cell) : PFloat :=
  let xs := (numsOf cs).mergeSort (fun a b => decide (a ≤ b))
  let n := xs.length
  if n = 0 then .nan
  else if n % 2 = 1 then .val (xs.getD (n / 2) 0)
  else .val ((xs.getD (n / 2 - 1) 0 + xs.getD (n / 2) 0) / 2)

/-- Rendering of a rational; Python's exact digit strings for floats are
abstracted to the rational's own rendering (no claim depends on them). -/
def ratStr (q : ℚ) : String :=
  if q.den = 1 then toString q.num else toString q

/-- `str(v)` for a cell, as `astype(str)` / `str()` render it (nulls read from
a numeric/object column render as `nan`). -/
def cellStr : Cell → String
  | .null => "nan"
  | .num q => ratStr q
  | .boolV b => if b then "True" else "False"
  | .strV s => s
  | .time t => toString t
  | .unhashable => "[...]"

/-- The per-column stats dict built by `get_data_profile`
(lambda_function.py:321-365). An `Option` field is `none` exactly when the
source leaves the key out of the dict or stores Python `None` under it; the
numeric and datetime branches both use the dict keys `min`/`max`, modelled here
as separate fields (`min`/`max` vs `dt_min`/`dt_max`) since the branches are
disjoint. -/
structure ColStats where
  dtype : String
  unique_count : ℕ
  null_count : ℕ
  null_percentage : ℚ
  unique_percentage : ℚ
  sample_values : Option (List String) := none
  true_count : Option ℕ := none
  false_count : Option ℕ := none
  true_percentage : Option ℚ := none
  mean : Option PFloat := none
  std : Option PFloat := none
  min : Option PFloat := none
  max : Option PFloat := none
  median : Option PFloat := none
  zeros : Option ℕ := none
  dt_min : Option String := none
  dt_max : Option String := none
  max_length : Option ℕ := none
  min_length : Option ℕ := none
  avg_length : Option ℚ := none
  empty_strings : Option ℕ := none
  deriving DecidableEq

/-- `col_data.nunique()`: distinct non-null values; raises TypeError when a
non-null value is unhashable. -/
def nunique (cs : List Cell) : Except PyError ℕ :=
  if (nonNullCells cs).any Cell.isUnhashable then
    .error (.raised "unhashable type: 'list'")
  else
    .ok (nonNullCells cs).dedup.length

/-- The try-body of one column iteration of `get_data_profile`
(lambda_function.py:316-367). The stats dict literal evaluates `nunique` first,
so an unhashable value aborts the whole entry before any other key is built. -/
def profileColumnStats (col : Column) : Except PyError ColStats := do
  let n := col.cells.length
  let u ← nunique col.cells
  let nc := col.cells.countP (fun c => c.isNull)
  let sv := (nonNullCells col.cells).take 5
  let base : ColStats :=
    { dtype := dtypeStr col.dtype
      unique_count := u
      null_count := nc
      null_percentage := if n > 0 then (nc : ℚ) / n * 100 else 0
      unique_percentage := if n > 0 then (u : ℚ) / n * 100 else 0
      sample_values := if sv.isEmpty then none else some (sv.map cellStr) }
  match col.dtype with
  | .boolDt =>
    let tc := col.cells.countP (fun c => c == .boolV true)
    .ok { base with
      true_count := some tc
      false_count := some (col.cells.countP (fun c => c == .boolV false))
      true_percentage := some (if n > 0 then (tc : ℚ) / n * 100 else 0) }
  | .intDt =>
    .ok { base with
      mean := some (pandasMean col.cells)
      std := some (if n > 1 then pandasStdSq col.cells else .val 0)
      min := if n > 0 then some (pandasMin col.cells) else none
      max := if n > 0 then some (pandasMax col.cells) else none
      median := if n > 0 then some (pandasMedian col.cells) else none
      zeros := some (col.cells.countP (fun c => c == .num 0)) }
  | .floatDt =>
    .ok { base with
      mean := some (pandasMean col.cells)
      std := some (if n > 1 then pandasStdSq col.cells else .val 0)
      min := if n > 0 then some (pandasMin col.cells) else none
      max := if n > 0 then some (pandasMax col.cells) else none
      median := if n > 0 then some (pandasMedian col.cells) else none
      zeros := some (col.cells.countP (fun c => c == .num 0)) }
  | .datetimeDt =>
    let allNull := col.cells.all (fun c => c.isNull)
    let ts := timesOf col.cells
    .ok { base with
      dt_min := if ¬col.cells.isEmpty ∧ ¬allNull
                then some (toString (ts.foldl min (ts.headD 0))) else none
      dt_max := if ¬col.cells.isEmpty ∧ ¬allNull
                then some (toString (ts.foldl max (ts.headD 0))) else none }
  | .objectDt =>
    let lens := col.cells.map (fun c => (cellStr c).length)
    .ok { base with
      max_length := some (if lens.isEmpty then 0 else lens.foldl Nat.max 0)
      min_length := some (if lens.isEmpty then 0 else lens.foldl Nat.min (lens.headD 0))
      avg_length := some (if lens.isEmpty then 0 else
        (listSum (lens.map (fun l => (l : ℚ)))) / lens.length)
      empty_strings := some (col.cells.countP (fun c => c == .strV "")) }

/-- One entry of `profile['columns']`: the stats dict, or the error entry
`dict(dtype, error)` built by the per-column except handler
(lambda_function.py:371-374). -/
inductive ColumnEntry where
  | stats (s : ColStats)
  | errorEntry (dtype : String) (err : String)
  deriving DecidableEq

def ColumnEntry.isErr : ColumnEntry → Bool
  | .stats _ => false
  | .errorEntry _ _ => true

/-- The per-column loop body including its except handler. -/
def profileColumn (col : Column) : ColumnEntry :=
  match profileColumnStats col with
  | .ok s => .stats s
  | .error e => .errorEntry (dtypeStr col.dtype) ("Profiling failed: " ++ e.msg)

/-- The profile dict (lambda_function.py:309-313). -/
structure Profile where
  column_count : ℕ
  row_count : ℕ
  columns : List (String × ColumnEntry)
  deriving DecidableEq

/-- `get_data_profile` (lambda_function.py:307-376): per-column profiling in
column order, each column's failure isolated to its own entry. -/
def get_data_profile (df : DataFrame) : Profile :=
  { column_count := df.cols.length
    row_count := df.nrows
    columns := df.cols.map (fun p => (p.1, profileColumn p.2)) }

/-- The frame with one named column dropped (profiling "as if the failing
column were absent"). -/
def dropColumn (df : DataFrame) (name : String) : DataFrame :=
  { nrows := df.nrows, cols := df.cols.filter (fun p => p.1 ≠ name) }

/-- One element of the `checks` list (lambda_function.py:385-391). -/
structure Finding where
  check_name : String
  column : String
  status : String
  message : String
  threshold : String
  deriving DecidableEq

/-- Round to the nearest integer, ties to even — the rounding Python float
formatting uses. -/
def roundHalfEven (q : ℚ) : ℤ :=
  let f := ⌊q⌋
  let r := q - f
  if r < 1/2 then f
  else if r > 1/2 then f + 1
  else if f % 2 = 0 then f else f + 1

/-- Python `"%.1f"` formatting of a non-negative value: one decimal place. -/
def fmt1 (q : ℚ) : String :=
  let t := roundHalfEven (q * 10)
  toString (t / 10) ++ "." ++ toString (t % 10)

/-- The null-check message `Found {nc} null values ({np:.1f}%)`
(lambda_function.py:389). -/
def nullCheckMessage (nc : ℕ) (np : ℚ) : String :=
  "Found " ++ toString nc ++ " null values (" ++ fmt1 np ++ "%)"

/-- One iteration of the null-value loop (lambda_function.py:383-391). The
error entry has no `null_count` key, so subscripting it raises KeyError. -/
def nullCheckStep (acc : List Finding) (ce : String × ColumnEntry) :
    Except PyError (List Finding) :=
  match ce.2 with
  | .errorEntry _ _ => .error (.keyError "null_count")
  | .stats st =>
    if st.null_count > 0 then
      .ok (acc ++ [{ check_name := "null_values_check"
                     column := ce.1
                     status := if st.null_percentage < 20 then "WARNING" else "ERROR"
                     message := nullCheckMessage st.null_count st.null_percentage
                     threshold := "0%" }])
    else .ok acc

/-- The null-check loop over `profile['columns'].items()` with the accumulated
`checks` list (lambda_function.py:383-391). -/
def nullChecksLoop : List Finding → List (String × ColumnEntry) →
    Except PyError (List Finding)
  | acc, [] => .ok acc
  | acc, ce :: rest =>
    match nullCheckStep acc ce with
    | .error e => .error e
    | .ok acc2 => nullChecksLoop acc2 rest

/-- `run_data_quality_checks` (lambda_function.py:378-395). The `df` argument
is taken but, as in the source, never read. -/
def run_data_quality_checks (df : DataFrame) (profile : Profile) :
    Except PyError (List Finding) :=
  nullChecksLoop [] profile.columns

/-- Status aggregation (lambda_function.py:588-591), applied to the current
result status (`SUCCESS` at that point in `check_data_quality`). -/
def aggregate_status (checks : List Finding) (current : String) : String :=
  if checks.any (fun c => c.status == "ERROR") then "FAILED"
  else if checks.any (fun c => c.status == "WARNING") then "WARNING"
  else current

/-- The Bedrock agent client state: the class-level circuit breaker fields and
the instance rate-limiter clock (lambda_function.py:176-195). Times are
`time.time()` values. -/
structure AgentState where
  circuitOpen : Bool
  circuitResetTime : ℚ
  lastCallTime : ℚ
  deriving DecidableEq

/-- `CIRCUIT_RESET_TIMEOUT = 300` (lambda_function.py:180). -/
def CIRCUIT_RESET_TIMEOUT : ℚ := 300

/-- `min_call_interval = 2.0` (lambda_function.py:195). -/
def MIN_CALL_INTERVAL : ℚ := 2

/-- `BedrockAgent._check_circuit_breaker` (lambda_function.py:197-204): raise
while the breaker is open inside the cool-down; close it once the cool-down has
elapsed. -/
def checkCircuitBreaker (s : AgentState) (now : ℚ) : Except PyError AgentState :=
  if s.circuitOpen then
    if now - s.circuitResetTime < CIRCUIT_RESET_TIMEOUT then
      .error (.raised "Circuit breaker is open. Too many failures. Try again later.")
    else
      .ok { s with circuitOpen := false }
  else .ok s

/-- `BedrockAgent._trip_circuit_breaker` (lambda_function.py:206-210). -/
def tripCircuitBreaker (s : AgentState) (now : ℚ) : AgentState :=
  { s with circuitOpen := true, circuitResetTime := now }

/-- `BedrockAgent._enforce_rate_limit` (lambda_function.py:212-220): sleep out
the remainder of the minimum inter-call interval, then stamp the clock; returns
the updated state and the time after the possible sleep. -/
def enforceRateLimit (s : AgentState) (now : ℚ) : AgentState × ℚ :=
  let now2 := if now - s.lastCallTime < MIN_CALL_INTERVAL
              then s.lastCallTime + MIN_CALL_INTERVAL else now
  ({ s with lastCallTime := now2 }, now2)

/-- One attempt's outcome at the remote endpoint
(`self.client.invoke_agent(**params)` plus the chunk concatenation,
lambda_function.py:261-268): the concatenated completion text, or an exception
whose `str(e)` is the given message. -/
inductive RemoteOutcome where
  | success (text : String)
  | exc (msg : String)
  deriving DecidableEq

/-- Whether `need` is a leading segment of `hay`. -/
def leadMatch : List Char → List Char → Bool
  | [], _ => true
  | _ :: _, [] => false
  | a :: as, b :: bs => a == b && leadMatch as bs

/-- Python substring containment (`need in hay`) on character lists. -/
def subSearch : List Char → List Char → Bool
  | need, [] => leadMatch need []
  | need, b :: rest => leadMatch need (b :: rest) || subSearch need rest

/-- `'throttlingException' in error_msg` (lambda_function.py:277), a substring
test. -/
def isThrottling (msg : String) : Bool :=
  subSearch "throttlingException".toList msg.toList

/-- The dict returned by `invoke_agent`: the success dict (line 270-273), the
error dict (line 292-298), or the post-loop fallback dict (line 301-305). -/
inductive InvokeDict where
  | success (response : String)
  | failure (error details : String) (retry_attempts : ℕ) (suggestion : String)
  | maxRetriesExceeded (error details : String)
  deriving DecidableEq

deriving instance DecidableEq for Except

/-- Result of a call to `invoke_agent`: the returned dict or an escaping
exception, the agent state afterwards, and how many remote attempts were made
(`remoteCalls = 0` means the remote-call step was never reached). -/
structure InvokeOutcome where
  result : Except PyError InvokeDict
  state : AgentState
  remoteCalls : ℕ
  deriving DecidableEq

/-- The expression `random.uniform(0, 0.1)` at lambda_function.py:279. The
module `random` is never imported in lambda_function.py, so evaluating the
name raises `NameError: name 'random' is not defined`. -/
def randomUniformCall : Except PyError ℚ := .error (.nameError "random")

/-- The retry loop of `invoke_agent` (lambda_function.py:243-305). `fuel` is
the number of remaining iterations (`max_retries - retry_count`); `remote n`
is the outcome of the remote attempt made with `retry_count = n`. -/
def invokeLoop (remote : ℕ → RemoteOutcome) (maxRetries : ℕ) :
    ℕ → ℕ → ℚ → ℚ → AgentState → ℕ → InvokeOutcome
  | 0, _, _, _, s, calls =>
    ⟨.ok (.maxRetriesExceeded "Max retries exceeded"
        "Failed to invoke Bedrock agent after maximum retry attempts"), s, calls⟩
  | fuel + 1, retryCount, delay, now, s, calls =>
    match remote retryCount with
    | .success text => ⟨.ok (.success text.trim), s, calls + 1⟩
    | .exc msg =>
      if isThrottling msg ∧ retryCount < maxRetries - 1 then
        match randomUniformCall with
        | .error e => ⟨.error e, s, calls + 1⟩
        | .ok jitter =>
          let sleepTime := min (delay * 2 ^ retryCount + jitter * retryCount) 10
          invokeLoop remote maxRetries fuel (retryCount + 1) delay
            (now + sleepTime) s (calls + 1)
      else
        let errDict := InvokeDict.failure ("Error invoking Bedrock agent: " ++ msg)
            msg (retryCount + 1)
            "Please wait before retrying or check your Bedrock service quotas."
        if retryCount ≥ maxRetries - 1 then
          ⟨.ok errDict, tripCircuitBreaker s now, calls + 1⟩
        else
          ⟨.ok errDict, s, calls + 1⟩

/-- `BedrockAgent.invoke_agent` (lambda_function.py:222-305): circuit-breaker
check first, then rate limiting, then the retry loop. An `Except.error` in the
result is an exception escaping `invoke_agent`. -/
def invoke_agent (s : AgentState) (now : ℚ) (remote : ℕ → RemoteOutcome)
    (maxRetries : ℕ) (initialDelay : ℚ) : InvokeOutcome :=
  match checkCircuitBreaker s now with
  | .error e => ⟨.error e, s, 0⟩
  | .ok s1 =>
    let rl := enforceRateLimit s1 now
    invokeLoop remote maxRetries maxRetries 0 initialDelay rl.2 rl.1 0

/-- One analysis dict returned by `analyze_with_titan_agent`; it catches all
its own exceptions, so it always returns a dict (lambda_function.py:42-174). -/
structure InsightDict where
  status : String
  analysis_type : String
  insights : Option String := none
  error : Option String := none
  deriving DecidableEq

/-- `result['ai_analysis']` in the success path: the per-type `analyses` dict
(lambda_function.py:535-565). -/
structure AIAnalyses where
  data_quality : InsightDict
  anomaly_detection : Option InsightDict := none
  deriving DecidableEq

/-- `result['execution_summary']`: the success path fills the count fields
(lambda_function.py:579-585), the failure path stores only the elapsed time and
the error (lambda_function.py:600-603). -/
structure ExecSummary where
  rows_processed : Option ℕ := none
  total_time_seconds : ℚ
  checks_performed : Option ℕ := none
  checks_failed : Option ℕ := none
  checks_warning : Option ℕ := none
  error : Option String := none
  deriving DecidableEq

/-- The `result` dict of `check_data_quality` (lambda_function.py:493-501);
`profile` and `execution_summary` are `none` while still the initial empty
dict. -/
structure RunResult where
  status : String
  timestamp : String
  database : String
  table : String
  checks : List Finding
  profile : Option Profile := none
  execution_summary : Option ExecSummary := none
  error : Option String := none
  ai_analysis : Option AIAnalyses := none
  deriving DecidableEq

/-- The collaborators of one `check_data_quality` run: the catalog lookup, the
Athena sample, the two Bedrock feature flags, and the two analysis dicts
returned by `analyze_with_titan_agent`. -/
structure CheckEnv where
  tableExists : Bool
  sample : DataFrame
  bedrockEnabled : Bool
  anomalyEnabled : Bool
  aiQuality : InsightDict
  aiAnomaly : InsightDict
  deriving DecidableEq

/-- The except handler of `check_data_quality` (lambda_function.py:595-605):
keep the fields assigned so far, overwrite status, error and the execution
summary. -/
def checkFail (r : RunResult) (msg : String) (elapsed : ℚ) : RunResult :=
  { r with
    status := "FAILED"
    error := some msg
    execution_summary := some { total_time_seconds := elapsed, error := some msg } }

/-- `check_data_quality` (lambda_function.py:491-605). `ts` models
`datetime.utcnow().isoformat()` and `elapsed` models `time.time() - start_time`. -/
def check_data_quality (env : CheckEnv) (database table : String)
    (ts : String) (elapsed : ℚ) : RunResult :=
  let init : RunResult :=
    { status := "SUCCESS"
      timestamp := ts
      database := database
      table := table
      checks := [] }
  if ¬env.tableExists then
    checkFail init ("Table " ++ database ++ "." ++ table ++ " does not exist") elapsed
  else if env.sample.isEmpty then
    checkFail init "No data found in the table" elapsed
  else
    let profile := get_data_profile env.sample
    let r1 := { init with profile := some profile }
    match run_data_quality_checks env.sample profile with
    | .error e => checkFail r1 e.msg elapsed
    | .ok checks =>
      let r2 := { r1 with checks := checks }
      let analyses : AIAnalyses :=
        { data_quality := env.aiQuality
          anomaly_detection := if env.anomalyEnabled then some env.aiAnomaly else none }
      let r3 := if env.bedrockEnabled then { r2 with ai_analysis := some analyses } else r2
      let summary : ExecSummary :=
        { rows_processed := some env.sample.nrows
          total_time_seconds := elapsed
          checks_performed := some checks.length
          checks_failed := some (checks.countP (fun c => c.status == "ERROR"))
          checks_warning := some (checks.countP (fun c => c.status == "WARNING")) }
      let r4 := { r3 with execution_summary := some summary }
      { r4 with status := aggregate_status checks r4.status }

/-- Insert a thousands separator after every third digit of a reversed digit
list (helper for Python `comma` formatting). -/
def groupThrees : List Char → List Char
  | a :: b :: c :: d :: rest => a :: b :: c :: ',' :: groupThrees (d :: rest)
  | l => l

/-- Python thousands-separator formatting of a natural number. -/
def fmtComma (n : ℕ) : String :=
  String.mk (groupThrees (toString n).toList.reverse).reverse

/-- Python `"%.2f"` formatting of a non-negative value: two decimal places. -/
def fmt2 (q : ℚ) : String :=
  let t := roundHalfEven (q * 100)
  let d := t % 100
  toString (t / 100) ++ "." ++ (if d < 10 then "0" else "") ++ toString d

/-- The error-details section of the report (lambda_function.py:409-418);
modelled results never carry a `stack_trace` key. -/
def errorSection (r : RunResult) : List String :=
  match r.error with
  | none => []
  | some e => ["## Error Details",
      "An error occurred during processing: `" ++ e ++ "`", "", ""]

/-- The execution-summary section (lambda_function.py:421-433). -/
def execSection (r : RunResult) : List String :=
  match r.execution_summary with
  | none => []
  | some es =>
    ["## Execution Summary",
     "- **Total Time:** " ++ fmt2 es.total_time_seconds ++ " seconds"]
    ++ (if r.error = none then
          ["- **Total Rows Processed:** " ++ fmtComma (es.rows_processed.getD 0)]
        else [])
    ++ (match es.error with
        | some e => ["- **Error:** " ++ e]
        | none => [])
    ++ [""]

/-- The AI section (lambda_function.py:436-443). In the success path
`result['ai_analysis']` is the per-type `analyses` dict, which has no top-level
`insights`/`status`/`error` keys, so neither branch fires and only the blank
line is appended. -/
def aiSection (r : RunResult) : List String :=
  match r.ai_analysis with
  | none => []
  | some _ => [""]

/-- The per-column lines of the profile section (lambda_function.py:459-476);
the null/unique lines are emitted only when both keys are present, and the
`'stats'` sub-block key is never produced by `get_data_profile`. -/
def colStatLines (p : String × ColumnEntry) : List String :=
  ["#### " ++ p.1] ++
  (match p.2 with
   | .errorEntry dt _ => ["- **Type:** " ++ dt]
   | .stats st =>
     ["- **Type:** " ++ st.dtype,
      "- **Null Values:** " ++ fmtComma st.null_count ++ " (" ++
        fmt1 st.null_percentage ++ "%)",
      "- **Unique Values:** " ++ fmtComma st.unique_count ++ " (" ++
        fmt1 st.unique_percentage ++ "%)"])

/-- The data-profile section (lambda_function.py:446-476). -/
def profileSection (r : RunResult) : List String :=
  match r.profile with
  | none => []
  | some p =>
    if p.columns.isEmpty then [] else
    ["## Data Profile",
     "- **Total Rows:** " ++ fmtComma p.row_count,
     "- **Total Columns:** " ++ toString p.column_count,
     "",
     "### Column Statistics"]
    ++ (p.columns.map colStatLines).flatten

/-- One line of the findings section (lambda_function.py:483-487). -/
def checkLine (c : Finding) : String :=
  (if c.status == "ERROR" then "❌" else "⚠️") ++ " **" ++ c.check_name ++
    "** - " ++ c.message

/-- The findings section (lambda_function.py:479-487). -/
def checksSection (r : RunResult) : List String :=
  if r.checks.isEmpty then [] else
  ["\n## Data Quality Issues"] ++ r.checks.map checkLine

/-- `generate_report` (lambda_function.py:397-489). -/
def generate_report (r : RunResult) : String :=
  String.intercalate "\n"
    (["# Data Quality Report",
      "**Database:** " ++ r.database,
      "**Table:** " ++ r.table,
      "**Status:** " ++ r.status,
      "**Timestamp:** " ++ r.timestamp,
      ""]
     ++ errorSection r ++ execSection r ++ aiSection r
     ++ profileSection r ++ checksSection r)

/-- The environment variables the handler reads. -/
structure HandlerEnv where
  s3Bucket : Option String
  snsTopicArn : Option String
  glueDatabase : Option String
  glueTable : Option String
  deriving DecidableEq

/-- The invocation event (`event.get('database')`, `event.get('table')`). -/
structure HandlerEvent where
  database : Option String
  table : Option String
  deriving DecidableEq

/-- The handler's response body: the 200 body (lambda_function.py:657-664) or
the 500 body (lambda_function.py:678-684). -/
inductive RespBody where
  | success (report_location : String) (execution_summary : Option ExecSummary)
  | failure (error details : String)
  deriving DecidableEq

structure LambdaResponse where
  statusCode : ℕ
  body : RespBody
  deriving DecidableEq

/-- What one handler invocation did: the returned response or the escaping
exception, plus the blob-store writes performed (storage key, serialized
result document). -/
structure HandlerOutcome where
  response : Except PyError LambdaResponse
  writes : List (String × RunResult)
  deriving DecidableEq

/-- Python truthiness of an optional string: `None` and `''` are falsy. -/
def truthy : Option String → Bool
  | none => false
  | some s => s != ""

/-- The calls `send_notification(...)` at lambda_function.py:651 and 672: no
function of that name is defined or imported in lambda_function.py, so the
call raises `NameError: name 'send_notification' is not defined`. -/
def sendNotificationCall : Except PyError Unit :=
  .error (.nameError "send_notification")

/-- Clock and blob-store inputs of one handler invocation: the result
timestamp, the upload timestamp (`%Y%m%d_%H%M%S`), the elapsed-time reading,
and whether the S3 upload raises (`some msg`) or succeeds. -/
structure HandlerCtx where
  ts : String
  uploadTs : String
  elapsed : ℚ
  uploadError : Option String
  deriving DecidableEq

/-- The try-body of `async_lambda_handler` (lambda_function.py:613-664). The
error case carries the raised exception together with the value of the local
`sns_topic_arn` at that point (`none` = not yet assigned, the case of an
exception raised before lambda_function.py:619). `if not s3_bucket:`
(lambda_function.py:616) is Python truthiness, so it raises both when the
variable is unset and when it is the empty string. -/
def handlerTryBody (env : HandlerEnv) (event : HandlerEvent) (cenv : CheckEnv)
    (ctx : HandlerCtx) :
    Except (PyError × Option String) LambdaResponse × List (String × RunResult) :=
  if ¬truthy env.s3Bucket then
    (.error (.raised "S3_BUCKET environment variable is required", none), [])
  else
    let s3Bucket := env.s3Bucket.getD ""
    let sns := env.snsTopicArn.getD ""
    let database := match event.database with
                    | some d => some d
                    | none => env.glueDatabase
    let table := match event.table with
                 | some t => some t
                 | none => env.glueTable
    if ¬(truthy database ∧ truthy table) then
      (.error (.raised
        "Both database and table must be provided either in the event or as environment variables",
        some sns), [])
    else
      let db := database.getD ""
      let tbl := table.getD ""
      let result := check_data_quality cenv db tbl ctx.ts ctx.elapsed
      let report := generate_report result
      let reportKey := "reports/" ++ db ++ "/" ++ tbl ++ "/" ++ ctx.uploadTs ++
        "/report.json"
      match ctx.uploadError with
      | some m => (.error (.raised m, some sns), [])
      | none =>
        let writes := [(reportKey, result)]
        let okResp : LambdaResponse :=
          { statusCode := 200
            body := .success ("s3://" ++ s3Bucket ++ "/" ++ reportKey)
              result.execution_summary }
        if sns != "" then
          match sendNotificationCall with
          | .error e => (.error (e, some sns), writes)
          | .ok _ => (.ok okResp, writes)
        else
          (.ok okResp, writes)

/-- `async_lambda_handler` (lambda_function.py:611-684): the try-body plus the
except handler. The except handler first evaluates `sns_topic_arn`
(lambda_function.py:671) — an UnboundLocalError when the exception was raised
before the local was assigned — and, when it is configured, calls the
undefined `send_notification`, whose NameError escapes the handler. -/
def async_lambda_handler (env : HandlerEnv) (event : HandlerEvent)
    (cenv : CheckEnv) (ctx : HandlerCtx) : HandlerOutcome :=
  match handlerTryBody env event cenv ctx with
  | (.ok resp, writes) => { response := .ok resp, writes := writes }
  | (.error (e, snsLocal), writes) =>
    match snsLocal with
    | none => { response := .error (.unboundLocal "sns_topic_arn"), writes := writes }
    | some sns =>
      let resp500 : LambdaResponse :=
        { statusCode := 500
          body := .failure "Failed to process data quality check" e.msg }
      if sns != "" then
        match sendNotificationCall with
        | .error e2 => { response := .error e2, writes := writes }
        | .ok _ => { response := .ok resp500, writes := writes }
      else
        { response := .ok resp500, writes := writes }


/-! ## Helper notions and lemmas for the claims -/

/-- The finding the null-value rule yields for one column entry, if any
(proof-side restatement of one loop iteration of
`run_data_quality_checks`). -/
def emitOne (ce : String × ColumnEntry) : Option Finding :=
  match ce.2 with
  | .errorEntry _ _ => none
  | .stats st =>
    if st.null_count > 0 then
      some ⟨"null_values_check", ce.1,
        if st.null_percentage < 20 then "WARNING" else "ERROR",
        nullCheckMessage st.null_count st.null_percentage, "0%"⟩
    else none

theorem nullChecksLoop_ok (l : List (String × ColumnEntry))
    (hok : ∀ e ∈ l, e.2.isErr = false) :
    ∀ acc, nullChecksLoop acc l = .ok (acc ++ l.filterMap emitOne) := by
  induction l with
  | nil => intro acc; simp [nullChecksLoop]
  | cons hd tl ih =>
    intro acc
    have h1 : hd.2.isErr = false := hok hd (List.mem_cons_self hd tl)
    have hok2 : ∀ e ∈ tl, e.2.isErr = false :=
      fun e he => hok e (List.mem_cons_of_mem hd he)
    cases h2 : hd.2 with
    | errorEntry d m => rw [h2] at h1; simp [ColumnEntry.isErr] at h1
    | stats st =>
      by_cases h3 : st.null_count > 0
      · simp [nullChecksLoop, nullCheckStep, h2, emitOne, h3, ih hok2]
      · simp [nullChecksLoop, nullCheckStep, h2, emitOne, h3, ih hok2]

theorem emitOne_column (ce : String × ColumnEntry) (f : Finding)
    (hf : emitOne ce = some f) : f.column = ce.1 := by
  cases h : ce.2 with
  | errorEntry d m => simp [emitOne, h] at hf
  | stats st =>
    simp only [emitOne, h] at hf
    split at hf
    · cases hf; rfl
    · cases hf

theorem filterMap_emit_not_mem (l : List (String × ColumnEntry)) (name : String)
    (hnm : name ∉ l.map Prod.fst) :
    (l.filterMap emitOne).filter (fun c => c.column == name) = [] := by
  induction l with
  | nil => simp
  | cons hd tl ih =>
    simp only [List.map_cons, List.mem_cons, not_or] at hnm
    cases hemit : emitOne hd with
    | none => simp [List.filterMap_cons, hemit, ih hnm.2]
    | some f =>
      have hcol := emitOne_column hd f hemit
      have hne : (f.column == name) = false := by
        simp [hcol]
        exact fun h => hnm.1 h.symm
      simp [List.filterMap_cons, hemit, List.filter_cons, hne, ih hnm.2]

theorem filter_emit_mem (l : List (String × ColumnEntry)) (name : String)
    (st : ColStats) (hnd : (l.map Prod.fst).Nodup)
    (hmem : (name, ColumnEntry.stats st) ∈ l) :
    (l.filterMap emitOne).filter (fun c => c.column == name) =
      (emitOne (name, ColumnEntry.stats st)).toList := by
  induction l with
  | nil => simp at hmem
  | cons hd tl ih =>
    simp only [List.map_cons, List.nodup_cons] at hnd
    rcases List.mem_cons.mp hmem with heq | hmem2
    · have hhd : hd = (name, ColumnEntry.stats st) := heq.symm
      subst hhd
      cases hemit : emitOne (name, ColumnEntry.stats st) with
      | none =>
        simp [List.filterMap_cons, hemit, filterMap_emit_not_mem tl name hnd.1]
      | some f =>
        have hcol := emitOne_column _ f hemit
        have hpass : (f.column == name) = true := by simp [hcol]
        simp [List.filterMap_cons, hemit, List.filter_cons, hpass,
          filterMap_emit_not_mem tl name hnd.1]
    · have hname_tl : name ∈ tl.map Prod.fst := by
        have := List.mem_map_of_mem Prod.fst hmem2
        simpa using this
      have hne : hd.1 ≠ name := fun h => hnd.1 (h ▸ hname_tl)
      cases hemit : emitOne hd with
      | none => simp [List.filterMap_cons, hemit, ih hnd.2 hmem2]
      | some f =>
        have hcol := emitOne_column hd f hemit
        have hfail : (f.column == name) = false := by simp [hcol]; exact hne
        simp [List.filterMap_cons, hemit, List.filter_cons, hfail, ih hnd.2 hmem2]

/-! ## The claims -/

/-- C1: for every dataset and profile whose column entries all carry stats
(with distinct column names, as Python dict keys are), the null-value check
emits no finding for a column whose `null_count` is 0, and exactly one finding
for every other column — with check name `null_values_check`, that column's
name, severity `WARNING` when `null_percentage < 20` and `ERROR` otherwise,
threshold `0%`, and the message stating the count and the percentage to one
decimal place. -/
theorem c1_null_value_check (df : DataFrame) (p : Profile)
    (hnd : (p.columns.map Prod.fst).Nodup)
    (hok : ∀ e ∈ p.columns, e.2.isErr = false) :
    ∃ checks, run_data_quality_checks df p = .ok checks ∧
      ∀ name st, (name, ColumnEntry.stats st) ∈ p.columns →
        (st.null_count = 0 → checks.filter (fun c => c.column == name) = []) ∧
        (st.null_count ≠ 0 → checks.filter (fun c => c.column == name) =
          [⟨"null_values_check", name,
            if st.null_percentage < 20 then "WARNING" else "ERROR",
            nullCheckMessage st.null_count st.null_percentage, "0%"⟩]) := by
  refine ⟨p.columns.filterMap emitOne, ?_, ?_⟩
  · simpa [run_data_quality_checks] using nullChecksLoop_ok p.columns hok []
  · intro name st hmem
    have hfil := filter_emit_mem p.columns name st hnd hmem
    constructor
    · intro h0
      rw [hfil]
      simp [emitOne, h0]
    · intro hpos
      rw [hfil]
      simp [emitOne, Nat.pos_of_ne_zero hpos]

/-- The dataset of the spec's worked scenario: `id` 1..3, `name` with one null,
`email` complete. -/
def dfW : DataFrame :=
  ⟨3, [("id", ⟨Dtype.intDt, [.num 1, .num 2, .num 3]⟩),
       ("name", ⟨Dtype.objectDt, [.strV "Alice", .strV "Bob", .null]⟩),
       ("email", ⟨Dtype.objectDt, [.strV "a@t.co", .strV "b@t.co", .strV "c@t.co"]⟩)]⟩

/-- Witness for C1 at the worked scenario's profile. -/
theorem c1_null_value_check_witness :
    ∃ checks, run_data_quality_checks dfW (get_data_profile dfW) = .ok checks ∧
      ∀ name st, (name, ColumnEntry.stats st) ∈ (get_data_profile dfW).columns →
        (st.null_count = 0 → checks.filter (fun c => c.column == name) = []) ∧
        (st.null_count ≠ 0 → checks.filter (fun c => c.column == name) =
          [⟨"null_values_check", name,
            if st.null_percentage < 20 then "WARNING" else "ERROR",
            nullCheckMessage st.null_count st.null_percentage, "0%"⟩]) :=
  c1_null_value_check dfW (get_data_profile dfW) (by decide) (by decide)

/-- C10: the rule evaluator's output depends only on the profile argument —
for every profile and any two dataframes, the outputs coincide, so repeated
calls with the same profile yield identical ordered output. -/
theorem c10_checks_depend_only_on_profile (p : Profile) (d1 d2 : DataFrame) :
    run_data_quality_checks d1 p = run_data_quality_checks d2 p := rfl

/-- C2: status aggregation over the produced findings, from the initial
SUCCESS status: FAILED when some finding has severity ERROR; otherwise WARNING
when some finding has severity WARNING; otherwise it remains SUCCESS. -/
theorem c2_status_aggregation (checks : List Finding) :
    ((∃ c ∈ checks, c.status = "ERROR") →
      aggregate_status checks "SUCCESS" = "FAILED") ∧
    ((¬∃ c ∈ checks, c.status = "ERROR") → (∃ c ∈ checks, c.status = "WARNING") →
      aggregate_status checks "SUCCESS" = "WARNING") ∧
    ((¬∃ c ∈ checks, c.status = "ERROR") → (¬∃ c ∈ checks, c.status = "WARNING") →
      aggregate_status checks "SUCCESS" = "SUCCESS") := by
  refine ⟨?_, ?_, ?_⟩
  · intro h
    have : checks.any (fun c => c.status == "ERROR") = true := by
      rw [List.any_eq_true]
      obtain ⟨c, hc, he⟩ := h
      exact ⟨c, hc, by simp [he]⟩
    simp [aggregate_status, this]
  · intro hne hw
    have h1 : checks.any (fun c => c.status == "ERROR") = false := by
      rw [List.any_eq_false]
      intro c hc
      simp only [beq_iff_eq]
      exact fun he => hne ⟨c, hc, he⟩
    have h2 : checks.any (fun c => c.status == "WARNING") = true := by
      rw [List.any_eq_true]
      obtain ⟨c, hc, hw'⟩ := hw
      exact ⟨c, hc, by simp [hw']⟩
    simp [aggregate_status, h1, h2]
  · intro hne hnw
    have h1 : checks.any (fun c => c.status == "ERROR") = false := by
      rw [List.any_eq_false]
      intro c hc
      simp only [beq_iff_eq]
      exact fun he => hne ⟨c, hc, he⟩
    have h2 : checks.any (fun c => c.status == "WARNING") = false := by
      rw [List.any_eq_false]
      intro c hc
      simp only [beq_iff_eq]
      exact fun hw => hnw ⟨c, hc, hw⟩
    simp [aggregate_status, h1, h2]

/-- Witness for C2 at concrete finding lists. -/
theorem c2_status_aggregation_witness :
    aggregate_status [⟨"null_values_check", "a", "ERROR", "m", "0%"⟩] "SUCCESS"
      = "FAILED" ∧
    aggregate_status [⟨"null_values_check", "a", "WARNING", "m", "0%"⟩] "SUCCESS"
      = "WARNING" ∧
    aggregate_status [] "SUCCESS" = "SUCCESS" := by
  refine ⟨(c2_status_aggregation _).1
      ⟨⟨"null_values_check", "a", "ERROR", "m", "0%"⟩, by simp, rfl⟩,
    (c2_status_aggregation _).2.1 (by simp)
      ⟨⟨"null_values_check", "a", "WARNING", "m", "0%"⟩, by simp, rfl⟩,
    (c2_status_aggregation []).2.2 (by simp) (by simp)⟩

/-- The stats record carried by an ok column entry (none for error entries). -/
def ColumnEntry.statsOf : ColumnEntry → Option ColStats
  | .stats s => some s
  | .errorEntry _ _ => none

/-- C4 counterexample: for an empty numeric (float64) column the profiler
yields `mean` present and NaN-valued, `std` present with value 0 and `zeros`
present with value 0, so the numeric statistics are not all absent when the
column is empty; only `min`, `max` and `median` are. -/
theorem c4_counterexample :
    profileColumn ⟨Dtype.floatDt, []⟩ =
      ColumnEntry.stats
        { dtype := "float64"
          unique_count := 0
          null_count := 0
          null_percentage := 0
          unique_percentage := 0
          mean := some PFloat.nan
          std := some (PFloat.val 0)
          zeros := some 0 } := by
  norm_num [profileColumn, profileColumnStats, nunique, nonNullCells, pandasMean,
    numsOf, dtypeStr, Bind.bind, Except.bind]

/-- C4 (amended): for every well-formed numeric column of a dataset with
rowCount ≤ 1, the profiled standard deviation is present and 0 — never NaN —
and when the dataset is empty, `min`, `max` and `median` are absent while
`mean` is present but NaN and `zeroCount` is present and 0. -/
theorem c4_numeric_stats_amended (df : DataFrame) (name : String) (col : Column)
    (hmem : (name, col) ∈ df.cols) (hrows : df.nrows ≤ 1)
    (hlen : col.cells.length = df.nrows)
    (hnum : col.dtype = Dtype.intDt ∨ col.dtype = Dtype.floatDt)
    (hwf : ∀ c ∈ col.cells, c = Cell.null ∨ ∃ q, c = Cell.num q) :
    ((name, profileColumn col) ∈ (get_data_profile df).columns) ∧
    ((profileColumn col).statsOf.map (fun st => st.std) =
      some (some (PFloat.val 0))) ∧
    (df.nrows = 0 →
      (profileColumn col).statsOf.map
          (fun st => (st.min, st.max, st.median, st.mean, st.zeros)) =
        some (none, none, none, some PFloat.nan, some 0)) := by
  refine ⟨?_, ?_, ?_⟩
  · have hmm := List.mem_map_of_mem (fun p => (p.1, profileColumn p.2)) hmem
    simpa [get_data_profile] using hmm
  · have hle : col.cells.length ≤ 1 := hlen ▸ hrows
    obtain ⟨d, cs⟩ := col
    simp only at hle hwf hnum
    rcases hnum with rfl | rfl <;>
    · cases cs with
      | nil =>
        norm_num [profileColumn, profileColumnStats, nunique, nonNullCells,
          ColumnEntry.statsOf, Bind.bind, Except.bind]
      | cons c tl =>
        cases tl with
        | nil =>
          rcases hwf c (by simp) with rfl | ⟨q, rfl⟩ <;>
            norm_num [profileColumn, profileColumnStats, nunique, nonNullCells,
              Cell.isNull, Cell.isUnhashable, ColumnEntry.statsOf,
              Bind.bind, Except.bind]
        | cons c2 tl2 => simp at hle
  · intro h0
    have hc : col.cells = [] := List.length_eq_zero.mp (by rw [hlen, h0])
    obtain ⟨d, cs⟩ := col
    simp only at hc hnum
    subst hc
    rcases hnum with rfl | rfl <;>
      norm_num [profileColumn, profileColumnStats, nunique, nonNullCells,
        ColumnEntry.statsOf, pandasMean, numsOf, Bind.bind, Except.bind]

/-- Witness for the amended C4 at a one-column empty dataset. -/
theorem c4_numeric_stats_amended_witness :
    (("x", profileColumn ⟨Dtype.intDt, []⟩) ∈
      (get_data_profile ⟨0, [("x", ⟨Dtype.intDt, []⟩)]⟩).columns) ∧
    ((profileColumn ⟨Dtype.intDt, []⟩).statsOf.map (fun st => st.std) =
      some (some (PFloat.val 0))) ∧
    ((0 : ℕ) = 0 →
      (profileColumn ⟨Dtype.intDt, []⟩).statsOf.map
          (fun st => (st.min, st.max, st.median, st.mean, st.zeros)) =
        some (none, none, none, some PFloat.nan, some 0)) :=
  c4_numeric_stats_amended ⟨0, [("x", ⟨Dtype.intDt, []⟩)]⟩ "x" ⟨Dtype.intDt, []⟩
    (by simp) (by norm_num) (by simp) (Or.inl rfl) (by simp)

theorem profile_drop (cols : List (String × Column)) (name : String) :
    (cols.filter (fun p => p.1 ≠ name)).map (fun p => (p.1, profileColumn p.2)) =
      (cols.map (fun p => (p.1, profileColumn p.2))).filter
        (fun p => p.1 ≠ name) := by
  simp only [ne_eq, decide_not]
  induction cols with
  | nil => simp
  | cons hd tl ih =>
    by_cases h : hd.1 = name <;> simp [List.filter_cons, h, ih]

/-- C5: when profiling one column raises, the profile still has an entry for
every column in order, the failing column's entry is the error marker tagged
with its dtype, and the entries of all other columns are exactly those of the
profile of the dataset with the failing column dropped — the whole profile is
never aborted. -/
theorem c5_column_error_isolated (df : DataFrame) (name : String) (col : Column)
    (hmem : (name, col) ∈ df.cols)
    (herr : (profileColumn col).isErr = true) :
    ((get_data_profile df).columns.map Prod.fst = df.cols.map Prod.fst) ∧
    (∃ msg, (name, ColumnEntry.errorEntry (dtypeStr col.dtype) msg) ∈
      (get_data_profile df).columns) ∧
    ((get_data_profile (dropColumn df name)).columns =
      (get_data_profile df).columns.filter (fun p => p.1 ≠ name)) := by
  refine ⟨?_, ?_, ?_⟩
  · simp [get_data_profile, List.map_map, Function.comp_def]
  · cases hp : profileColumnStats col with
    | ok s => simp [profileColumn, hp, ColumnEntry.isErr] at herr
    | error e =>
      refine ⟨"Profiling failed: " ++ e.msg, ?_⟩
      have heq : profileColumn col =
          ColumnEntry.errorEntry (dtypeStr col.dtype)
            ("Profiling failed: " ++ e.msg) := by
        simp [profileColumn, hp]
      have hmm := List.mem_map_of_mem (fun p => (p.1, profileColumn p.2)) hmem
      simp only at hmm
      rw [heq] at hmm
      simpa [get_data_profile] using hmm
  · have hpd := profile_drop df.cols name
    simp only [get_data_profile, dropColumn]
    simpa using hpd

/-- The dataset of the C5 witness: a sound `a` column and a `bad` object
column containing an unhashable value. -/
def dfErrW : DataFrame :=
  ⟨2, [("a", ⟨Dtype.intDt, [Cell.num 1, Cell.num 2]⟩),
       ("bad", ⟨Dtype.objectDt, [Cell.unhashable, Cell.strV "x"]⟩)]⟩

/-- Witness for C5 at a dataset with one malformed column. -/
theorem c5_column_error_isolated_witness :
    ((get_data_profile dfErrW).columns.map Prod.fst = dfErrW.cols.map Prod.fst) ∧
    (∃ msg, ("bad", ColumnEntry.errorEntry
        (dtypeStr (Dtype.objectDt)) msg) ∈ (get_data_profile dfErrW).columns) ∧
    ((get_data_profile (dropColumn dfErrW "bad")).columns =
      (get_data_profile dfErrW).columns.filter (fun p => p.1 ≠ "bad")) :=
  c5_column_error_isolated dfErrW "bad"
    ⟨Dtype.objectDt, [Cell.unhashable, Cell.strV "x"]⟩ (by simp [dfErrW])
    (by decide)

/-- The check environment of the empty-dataset scenario: the table exists but
the sampled dataframe has 0 rows. -/
def emptyRunEnv : CheckEnv :=
  { tableExists := true
    sample := ⟨0, [("id", ⟨Dtype.intDt, []⟩)]⟩
    bedrockEnabled := false
    anomalyEnabled := false
    aiQuality := { status := "success", analysis_type := "data_quality" }
    aiAnomaly := { status := "success", analysis_type := "anomaly_detection" } }

/-- C3 counterexample: on a dataset with 0 rows the run does fail — the code
raises `No data found in the table` (lambda_function.py:518-519), so the run's
status is FAILED, not SUCCESS. -/
theorem c3_counterexample :
    (check_data_quality emptyRunEnv "db" "tbl" "t0" 1).status = "FAILED" ∧
    (check_data_quality emptyRunEnv "db" "tbl" "t0" 1).status ≠ "SUCCESS" := by
  constructor
  · norm_num [check_data_quality, emptyRunEnv, DataFrame.isEmpty, checkFail]
  · norm_num [check_data_quality, emptyRunEnv, DataFrame.isEmpty, checkFail]
    decide

/-- C3 (amended): for every run whose table exists and whose sampled dataset
has 0 rows, `check_data_quality` fails fast with the raised
`No data found in the table` error: status FAILED, the error recorded, no
findings, no profile, and an execution summary carrying only the elapsed time
and the error. -/
theorem c3_empty_dataset_amended (env : CheckEnv) (db tbl ts : String)
    (elapsed : ℚ) (hex : env.tableExists = true) (h0 : env.sample.nrows = 0) :
    check_data_quality env db tbl ts elapsed =
      { status := "FAILED"
        timestamp := ts
        database := db
        table := tbl
        checks := []
        error := some "No data found in the table"
        execution_summary := some
          { total_time_seconds := elapsed
            error := some "No data found in the table" } } := by
  simp [check_data_quality, hex, DataFrame.isEmpty, h0, checkFail]

/-- Witness for the amended C3 at the concrete empty dataset. -/
theorem c3_empty_dataset_amended_witness :
    check_data_quality emptyRunEnv "db" "tbl" "t0" 1 =
      { status := "FAILED"
        timestamp := "t0"
        database := "db"
        table := "tbl"
        checks := []
        error := some "No data found in the table"
        execution_summary := some
          { total_time_seconds := 1
            error := some "No data found in the table" } } :=
  c3_empty_dataset_amended emptyRunEnv "db" "tbl" "t0" 1 rfl rfl

/-- C6: while the breaker is open and less than the 300-second cool-down has
passed since it was tripped, `invoke_agent` fails immediately with the
circuit-open error, making no remote call and leaving the state unchanged;
once the cool-down has elapsed, the breaker-check closes the breaker and the
next call proceeds to the remote-call step. -/
theorem c6_circuit_breaker (s : AgentState) (now : ℚ)
    (remote : ℕ → RemoteOutcome) (maxRetries : ℕ) (delay : ℚ)
    (hopen : s.circuitOpen = true) :
    (now - s.circuitResetTime < CIRCUIT_RESET_TIMEOUT →
      invoke_agent s now remote maxRetries delay =
        ⟨.error (.raised
          "Circuit breaker is open. Too many failures. Try again later."),
          s, 0⟩) ∧
    (¬now - s.circuitResetTime < CIRCUIT_RESET_TIMEOUT → 0 < maxRetries →
      checkCircuitBreaker s now = .ok { s with circuitOpen := false } ∧
      1 ≤ (invoke_agent s now remote maxRetries delay).remoteCalls) := by
  constructor
  · intro hcd
    simp [invoke_agent, checkCircuitBreaker, hopen, hcd]
  · intro hcd hm
    refine ⟨by simp [checkCircuitBreaker, hopen, hcd], ?_⟩
    obtain ⟨k, rfl⟩ : ∃ k, maxRetries = k + 1 :=
      ⟨maxRetries - 1, (Nat.succ_pred_eq_of_pos hm).symm⟩
    simp only [invoke_agent, checkCircuitBreaker, hopen, hcd, if_true, if_false]
    rcases hr : remote 0 with t | m
    · simp [invokeLoop, hr]
    · simp only [invokeLoop, hr, randomUniformCall]
      split
      · simp
      · split <;> simp

/-- Witness for C6: an open breaker 100s after tripping blocks the call; 400s
after tripping the breaker closes and the remote step runs. -/
theorem c6_circuit_breaker_witness :
    (invoke_agent ⟨true, 0, 0⟩ 100 (fun _ => RemoteOutcome.success "ok") 5 2 =
      ⟨.error (.raised
        "Circuit breaker is open. Too many failures. Try again later."),
        ⟨true, 0, 0⟩, 0⟩) ∧
    (checkCircuitBreaker ⟨true, 0, 0⟩ 400 = .ok ⟨false, 0, 0⟩ ∧
      1 ≤ (invoke_agent ⟨true, 0, 0⟩ 400
            (fun _ => RemoteOutcome.success "ok") 5 2).remoteCalls) := by
  constructor
  · exact (c6_circuit_breaker ⟨true, 0, 0⟩ 100 _ 5 2 rfl).1
      (by norm_num [CIRCUIT_RESET_TIMEOUT])
  · exact (c6_circuit_breaker ⟨true, 0, 0⟩ 400 _ 5 2 rfl).2
      (by norm_num [CIRCUIT_RESET_TIMEOUT]) (by norm_num)

/-- C7 (evaluation at the failing input): with the breaker closed and the
remote endpoint throttling on the first attempt, `invoke_agent` does not back
off and retry — computing the backoff evaluates `random.uniform`
(lambda_function.py:279) and `random` is never imported, so `invoke_agent`
raises `NameError: name 'random' is not defined` after exactly one remote
attempt, tripping no breaker and returning no result dict. A non-retryable
failure, by contrast, does return the error dict immediately. -/
theorem c7_throttled_retry_raises :
    (invoke_agent ⟨false, 0, 0⟩ 100
      (fun _ => RemoteOutcome.exc "throttlingException: Rate exceeded") 5 2 =
      ⟨.error (.nameError "random"), ⟨false, 0, 100⟩, 1⟩) ∧
    (invoke_agent ⟨false, 0, 0⟩ 100
      (fun _ => RemoteOutcome.exc "AccessDeniedException") 5 2 =
      ⟨.ok (.failure "Error invoking Bedrock agent: AccessDeniedException"
          "AccessDeniedException" 1
          "Please wait before retrying or check your Bedrock service quotas."),
        ⟨false, 0, 100⟩, 1⟩) := by
  have ht : isThrottling "throttlingException: Rate exceeded" = true := rfl
  have hnt : isThrottling "AccessDeniedException" = false := rfl
  constructor
  · norm_num [invoke_agent, checkCircuitBreaker, enforceRateLimit, invokeLoop,
      randomUniformCall, ht, MIN_CALL_INTERVAL]
  · norm_num [invoke_agent, checkCircuitBreaker, enforceRateLimit, invokeLoop,
      randomUniformCall, hnt, MIN_CALL_INTERVAL]
    rfl

/-- The handler's response status code, when it returned rather than raised. -/
def HandlerOutcome.respStatus (o : HandlerOutcome) : Option ℕ :=
  match o.response with
  | .ok r => some r.statusCode
  | .error _ => none

/-- Environment of a configured run without SNS. -/
def envOkW : HandlerEnv :=
  { s3Bucket := some "bucket", snsTopicArn := none,
    glueDatabase := none, glueTable := none }

/-- Event naming the database and table. -/
def eventW : HandlerEvent := { database := some "db", table := some "tbl" }

/-- Clock and blob-store inputs of a clean run. -/
def ctxW : HandlerCtx :=
  { ts := "t0", uploadTs := "20260101_000000", elapsed := 1, uploadError := none }

/-- Check environment of a successful run over the scenario dataset. -/
def cenvOkW : CheckEnv :=
  { tableExists := true
    sample := dfW
    bedrockEnabled := false
    anomalyEnabled := false
    aiQuality := { status := "success", analysis_type := "data_quality" }
    aiAnomaly := { status := "success", analysis_type := "anomaly_detection" } }

/-- C8 counterexample: a successful run (response 200) persists exactly one
artifact — not two; the rendered report is computed but never uploaded. -/
theorem c8_counterexample :
    (async_lambda_handler envOkW eventW cenvOkW ctxW).respStatus = some 200 ∧
    (async_lambda_handler envOkW eventW cenvOkW ctxW).writes.length = 1 ∧
    (async_lambda_handler envOkW eventW cenvOkW ctxW).writes.length ≠ 2 := by
  have hb : ("bucket" : String) ≠ "" := by decide
  have hd : ("db" : String) ≠ "" := by decide
  have ht : ("tbl" : String) ≠ "" := by decide
  norm_num [async_lambda_handler, handlerTryBody, envOkW, eventW, ctxW, truthy,
    HandlerOutcome.respStatus, hb, hd, ht]

/-- C8 (amended): every run that reaches persistence stores exactly one
artifact — the structured result document — under the storage key
`reports/{database}/{table}/{timestamp}/report.json`; the rendered report
document is generated but not persisted, and there is no separate date
segment in the key. -/
theorem c8_single_artifact_amended (env : HandlerEnv) (event : HandlerEvent)
    (cenv : CheckEnv) (ctx : HandlerCtx) (bucket db tbl : String)
    (hs3 : env.s3Bucket = some bucket) (hbne : bucket ≠ "")
    (hdb : event.database = some db) (hdbne : db ≠ "")
    (htbl : event.table = some tbl) (htblne : tbl ≠ "")
    (hup : ctx.uploadError = none) :
    (async_lambda_handler env event cenv ctx).writes =
      [("reports/" ++ db ++ "/" ++ tbl ++ "/" ++ ctx.uploadTs ++ "/report.json",
        check_data_quality cenv db tbl ctx.ts ctx.elapsed)] := by
  have h0 : truthy (some bucket) = true := by simp [truthy, hbne]
  have h1 : truthy (some db) = true := by simp [truthy, hdbne]
  have h2 : truthy (some tbl) = true := by simp [truthy, htblne]
  simp only [async_lambda_handler, handlerTryBody, h0, hs3, hdb, htbl, hup, h1, h2]
  cases hsns : (env.snsTopicArn.getD "" != "") <;>
    simp [hsns, sendNotificationCall]

/-- Witness for the amended C8 at the concrete successful run. -/
theorem c8_single_artifact_amended_witness :
    (async_lambda_handler envOkW eventW cenvOkW ctxW).writes =
      [("reports/" ++ "db" ++ "/" ++ "tbl" ++ "/" ++ ctxW.uploadTs ++
          "/report.json",
        check_data_quality cenvOkW "db" "tbl" ctxW.ts ctxW.elapsed)] :=
  c8_single_artifact_amended envOkW eventW cenvOkW ctxW "bucket" "db" "tbl"
    rfl (by decide) rfl (by decide) rfl (by decide) rfl

/-- C9 (evaluation at the failing inputs): the top-level handler can throw
past its boundary. With `S3_BUCKET` missing, the raised ValueError reaches the
except handler before the local `sns_topic_arn` was assigned, and evaluating
`if sns_topic_arn:` (lambda_function.py:671) raises UnboundLocalError instead
of returning the 500 response. And with `S3_BUCKET` present, SNS configured,
and the database/table configuration missing, the except handler calls the
undefined `send_notification` and raises NameError. -/
theorem c9_handler_raises :
    ((async_lambda_handler ⟨none, some "arn", none, none⟩ eventW cenvOkW
        ctxW).response = .error (.unboundLocal "sns_topic_arn")) ∧
    ((async_lambda_handler ⟨some "bucket", some "arn", none, none⟩ ⟨none, none⟩
        cenvOkW ctxW).response = .error (.nameError "send_notification")) := by
  constructor
  · simp [async_lambda_handler, handlerTryBody, truthy]
  · have ha : ("arn" : String) ≠ "" := by decide
    have hb : ("bucket" : String) ≠ "" := by decide
    norm_num [async_lambda_handler, handlerTryBody, truthy, sendNotificationCall,
      ha, hb]

end DataQuality
